import Mathlib

/-!
Shallow embedding of `gee-chm-gedi-sentinel2.js`, a Google Earth Engine
script that trains a random-forest regressor mapping Sentinel-2 bands and
vegetation indices to GEDI RH95 canopy height.

Images are modelled as per-pixel partial maps (a masked pixel is `none`),
feature collections as lists of features with partial property maps
(a null property is `none`).  Dates are encoded as `yyyymmdd` natural
numbers, whose order agrees with calendar order.
-/

/-- A raster pixel location (abstract integer grid coordinates). -/
abbrev Pixel := ℤ × ℤ

/-- An Earth Engine image: an acquisition date (`system:time_start`,
encoded `yyyymmdd`), a list of band names, and a per-band per-pixel
partial value map (`none` = masked pixel). -/
structure EEImage where
  date : Nat
  bandNames : List String
  val : String → Pixel → Option ℚ

/-- A feature: a point geometry plus a partial property map
(`none` = null / absent property). -/
structure Feature where
  geom : Pixel
  props : String → Option ℚ

/-- `im.updateMask(mask)`: a pixel is kept where the mask value is present
and nonzero; it is masked where the mask is zero or itself masked. -/
def updateMask (img : EEImage) (mask : Pixel → Option ℚ) : EEImage :=
  { img with val := fun b p =>
      match mask p with
      | some m => if m = 0 then none else img.val b p
      | none => none }

/-- `im.select(band).eq(c)`: the single-band image that is 1 where `band`
equals `c`, 0 where it differs, and masked where `band` is masked. -/
def eqMask (img : EEImage) (band : String) (c : ℚ) : Pixel → Option ℚ :=
  fun p => (img.val band p).map (fun x => if x = c then 1 else 0)

/-- `im.clip(ROI)`: masks every pixel outside the region of interest. -/
def clip (roi : Pixel → Bool) (img : EEImage) : EEImage :=
  { img with val := fun b p => if roi p then img.val b p else none }

/-- `im.select(selector)`: keeps exactly the bands accepted by the
selector predicate, dropping all others. -/
def selectBands (sel : String → Bool) (img : EEImage) : EEImage :=
  { img with
    bandNames := img.bandNames.filter sel,
    val := fun b p => if sel b then img.val b p else none }

/-- Source `qualityMask`: keeps only pixels where `quality_flag == 1` and
`degrade_flag == 0`, both masks taken from the input image. -/
def qualityMask (im : EEImage) : EEImage :=
  updateMask (updateMask im (eqMask im "quality_flag" 1)) (eqMask im "degrade_flag" 0)

/-- `filterDate(lo, hi)` on an image collection: keeps images whose date
lies in `[lo, hi)` (start inclusive, end exclusive). -/
def filterDate (lo hi : Nat) (coll : List EEImage) : List EEImage :=
  coll.filter (fun im => decide (lo ≤ im.date) && decide (im.date < hi))

/-- The band selector of `select(['rh.*', 'lat_highestreturn',
'lon_highestreturn'])`: the regex `rh.*` accepts every band whose name
starts with the two characters `rh`. -/
def gediBandSel (b : String) : Bool :=
  b.data.take 2 == ['r', 'h'] || b == "lat_highestreturn" || b == "lon_highestreturn"

/-- Source `gedi`: the GEDI L2A collection with the quality mask applied,
filtered to dates in [2019-06-01, 2019-10-01), clipped to the ROI, and
restricted to the `rh.*` / latitude / longitude bands. -/
def gediFiltered (roi : Pixel → Bool) (coll : List EEImage) : List EEImage :=
  ((filterDate 20190601 20191001 (coll.map qualityMask)).map (clip roi)).map
    (selectBands gediBandSel)

/- Concrete instances used to exercise the GEDI pipeline. -/

/-- A fixed pixel. -/
def pC : Pixel := (0, 0)

/-- A region of interest containing every pixel. -/
def roiC : Pixel → Bool := fun _ => true

/-- A concrete GEDI image: one valid shot at `pC` with bands `rh50`,
`rh95`, coordinates and flags, acquired 2019-07-15. -/
def gediImgC : EEImage :=
  { date := 20190715,
    bandNames := ["rh50", "rh95", "lat_highestreturn", "lon_highestreturn",
                  "quality_flag", "degrade_flag"],
    val := fun b p =>
      if p = pC then
        if b = "rh50" then some 7
        else if b = "rh95" then some 42
        else if b = "lat_highestreturn" then some 43
        else if b = "lon_highestreturn" then some (-76)
        else if b = "quality_flag" then some 1
        else if b = "degrade_flag" then some 0
        else none
      else none }

/-- The same concrete shot acquired 2019-10-15: within six months of
2019-06-01 but outside the script's four-month window. -/
def gediLateC : EEImage :=
  { gediImgC with date := 20191015 }

/-- The image the GEDI pipeline produces from `gediImgC`. -/
def gediOutC : EEImage :=
  selectBands gediBandSel (clip roiC (qualityMask gediImgC))

/-! ## Vegetation indices (source section 4) -/

/-- `image.expression('((NIR - B) / (NIR + B))', ...).rename(name)`: a
single-band image computing the normalized difference of two input bands.
A pixel is masked where either input is masked.  Division follows the
platform's `divide` semantics, which returns 0 for division by zero (in
Lean, `ℚ` division by zero is likewise 0). -/
def indexImage (img : EEImage) (nirB otherB outName : String) : EEImage :=
  { date := img.date,
    bandNames := [outName],
    val := fun b p =>
      if b = outName then
        match img.val nirB p, img.val otherB p with
        | some a, some c => some ((a - c) / (a + c))
        | _, _ => none
      else none }

/-- Source `ndvi`: normalized difference of B8 (NIR) and B4 (red). -/
def ndvi (img : EEImage) : EEImage := indexImage img "B8_median" "B4_median" "ndvi"

/-- Source `nbr`: normalized difference of B8 (NIR) and B11 (SWIR1). -/
def nbr (img : EEImage) : EEImage := indexImage img "B8_median" "B11_median" "nbr"

/-- Source `ndmi`: normalized difference of B8 (NIR) and B12 (SWIR2). -/
def ndmi (img : EEImage) : EEImage := indexImage img "B8_median" "B12_median" "ndmi"

/-- `a.addBands(b)`: appends the bands of `b` to those of `a`; at a band
of `b` the new image takes the value of `b` (the usage here has no name
collisions). -/
def addBands (img other : EEImage) : EEImage :=
  { date := img.date,
    bandNames := img.bandNames ++ other.bandNames,
    val := fun b p => if b ∈ other.bandNames then other.val b p else img.val b p }

/-- Source `stacked`: the composite with the three index bands appended. -/
def stacked (img : EEImage) : EEImage :=
  addBands (addBands (addBands img (ndvi img)) (nbr img)) (ndmi img)

/-! ## Sample splitter (source section 6) -/

/-- Sets one property of a feature. -/
def setProp (f : Feature) (k : String) (v : ℚ) : Feature :=
  { f with props := fun b => if b = k then some v else f.props b }

/-- Source `validFeatures`: `filter(ee.Filter.neq('rh95', null))` keeps
exactly the features whose `rh95` property is non-null. -/
def validFeatures (fc : List Feature) : List Feature :=
  fc.filter (fun f => (f.props "rh95").isSome)

/-- Helper of `randomColumn`: assigns the i-th feature the value
`hash i` in property `random`. -/
def addRandom (hash : Nat → ℚ) : Nat → List Feature → List Feature
  | _, [] => []
  | i, f :: fs => setProp f "random" (hash i) :: addRandom hash (i + 1) fs

/-- `fc.randomColumn('random')`: adds a property `random` holding a
pseudo-random value.  The platform generator is deterministic in the
seed (the script uses the default fixed seed 0) and, per its
documentation, uniform in [0, 1); it is modelled by an abstract function
`hash` of the feature position, with the range stated as a hypothesis
where needed. -/
def randomColumn (hash : Nat → ℚ) (fc : List Feature) : List Feature :=
  addRandom hash 0 fc

/-- Source `withRandom`: the valid features with the random column. -/
def withRandom (hash : Nat → ℚ) (fc : List Feature) : List Feature :=
  randomColumn hash (validFeatures fc)

/-- Filter comparing a numeric property; a feature whose property is
null fails the comparison. -/
def propLt (name : String) (c : ℚ) (f : Feature) : Bool :=
  match f.props name with
  | some r => decide (r < c)
  | none => false

/-- Filter comparing a numeric property; a feature whose property is
null fails the comparison. -/
def propGte (name : String) (c : ℚ) (f : Feature) : Bool :=
  match f.props name with
  | some r => decide (c ≤ r)
  | none => false

/-- Source `trainingSamples`: `withRandom.filter(ee.Filter.lt('random', 0.7))`. -/
def trainingSamples (hash : Nat → ℚ) (fc : List Feature) : List Feature :=
  (withRandom hash fc).filter (propLt "random" (7/10))

/-- Source `testingSamples`: `withRandom.filter(ee.Filter.gte('random', 0.7))`. -/
def testingSamples (hash : Nat → ℚ) (fc : List Feature) : List Feature :=
  (withRandom hash fc).filter (propGte "random" (7/10))

/-! ## Random forest model (source section 7) -/

/-- The hyperparameters handed to `ee.Classifier.smileRandomForest`. -/
structure RFParams where
  numberOfTrees : Nat
  minLeafPopulation : Nat
  bagFraction : ℚ
  seed : Nat

/-- The constants of the source call. -/
def rfParams : RFParams :=
  { numberOfTrees := 74, minLeafPopulation := 3, bagFraction := 1, seed := 123 }

/-- Source `inputBands`: the 11 predictor band names. -/
def inputBands : List String :=
  ["B2_median", "B3_median", "B4_median", "B5_median", "B7_median",
   "B8_median", "B11_median", "B12_median", "ndvi", "nbr", "ndmi"]

/-- `img.sampleRegions({collection, properties, scale})`: for each point,
extracts every band value of the image at the point's location, keeps the
listed input properties, and drops points falling on masked pixels. -/
def sampleRegions (img : EEImage) (fc : List Feature) (keep : List String) :
    List Feature :=
  fc.filterMap (fun f =>
    if img.bandNames.all (fun b => (img.val b f.geom).isSome) then
      some { geom := f.geom,
             props := fun b =>
               if b ∈ img.bandNames then img.val b f.geom
               else if b ∈ keep then f.props b else none }
    else none)

/-- Source `training`: predictor values sampled at the training points,
carrying the target property `rh95`. -/
def trainingTable (hash : Nat → ℚ) (simg : EEImage) (fc : List Feature) :
    List Feature :=
  sampleRegions (stacked simg) (trainingSamples hash fc) ["rh95"]

/-- A configured and trained classifier: the hyperparameters, output
mode, feature list, target property name, and the training rows it was
fitted on. -/
structure TrainedModel where
  params : RFParams
  outputMode : String
  inputProperties : List String
  classProperty : String
  trainingData : List Feature

/-- Source `RFmodel`: `smileRandomForest({74, 3, 1, 123})
.setOutputMode('REGRESSION').train({training, inputBands, 'rh95'})`.
The script performs no emptiness check: the model value is produced
whatever the training table, including when it is empty. -/
def RFmodel (hash : Nat → ℚ) (simg : EEImage) (fc : List Feature) : TrainedModel :=
  { params := rfParams,
    outputMode := "REGRESSION",
    inputProperties := inputBands,
    classProperty := "rh95",
    trainingData := trainingTable hash simg fc }

/-! ## Evaluator (source RMSE / MAE block) -/

/-- `fc.aggregate_array(prop)`: the list of the non-null values of a
property across the collection (null values are skipped by the
underlying list reducer). -/
def aggregateArray (fc : List Feature) (prop : String) : List ℚ :=
  fc.filterMap (fun f => f.props prop)

/-- Source pairing: `aggregate_array('rh95').zip(aggregate_array('classification'))`,
giving (observed, predicted) pairs by position, truncated to the shorter
list. -/
def evalPairs (fc : List Feature) : List (ℚ × ℚ) :=
  (aggregateArray fc "rh95").zip (aggregateArray fc "classification")

/-- `list.reduce('mean')`: the arithmetic mean (0 on the empty list,
matching the junk value of division by zero). -/
def listMean (l : List ℚ) : ℚ := l.sum / l.length

/-- Source `rmse` list: per-pair squared residual `(pred - obs)^2`. -/
def rmseTerms (fc : List Feature) : List ℚ :=
  (evalPairs fc).map (fun pr => (pr.2 - pr.1) ^ 2)

/-- Source `rmseVal` before the square root: the mean squared residual
(the script then takes `sqrt` of this number). -/
def rmseSqVal (fc : List Feature) : ℚ := listMean (rmseTerms fc)

/-- Source `mae` list: per-pair absolute residual. -/
def maeTerms (fc : List Feature) : List ℚ :=
  (evalPairs fc).map (fun pr => |pr.2 - pr.1|)

/-- Source `maeVal`: the mean absolute residual. -/
def maeVal (fc : List Feature) : ℚ := listMean (maeTerms fc)

/-- Modelled from the spec: mean squared error `mean((pred - obs)^2)`
over a list of (observed, predicted) pairs, the quantity under the
square root in the spec's RMSE formula. -/
def specMeanSqErr (ps : List (ℚ × ℚ)) : ℚ :=
  ((ps.map (fun pr => (pr.2 - pr.1) ^ 2)).sum) * ((ps.length : ℚ))⁻¹

/-- Modelled from the spec: `MAE = mean(|pred - obs|)` over a list of
(observed, predicted) pairs. -/
def specMAE (ps : List (ℚ × ℚ)) : ℚ :=
  ((ps.map (fun pr => |pr.2 - pr.1|)).sum) * ((ps.length : ℚ))⁻¹

/-! ## Concrete instances for witnesses and counterexamples -/

/-- A concrete Sentinel-2 composite with the eight spectral bands, all
unmasked at `pC`. -/
def s2ImgC : EEImage :=
  { date := 20190801,
    bandNames := ["B2_median", "B3_median", "B4_median", "B5_median",
                  "B7_median", "B8_median", "B11_median", "B12_median"],
    val := fun b p =>
      if p = pC then
        if b = "B2_median" then some 10
        else if b = "B3_median" then some 11
        else if b = "B4_median" then some 1
        else if b = "B5_median" then some 12
        else if b = "B7_median" then some 13
        else if b = "B8_median" then some 4
        else if b = "B11_median" then some 2
        else if b = "B12_median" then some 3
        else none
      else none }

/-- A composite whose NIR and red/SWIR values make every index
denominator zero at `pC` (B8 = 1, the other three bands = -1). -/
def s2ImgZeroDen : EEImage :=
  { date := 20190801,
    bandNames := ["B2_median", "B3_median", "B4_median", "B5_median",
                  "B7_median", "B8_median", "B11_median", "B12_median"],
    val := fun b p =>
      if p = pC then
        if b = "B8_median" then some 1
        else if b = "B4_median" then some (-1)
        else if b = "B11_median" then some (-1)
        else if b = "B12_median" then some (-1)
        else some 5
      else none }

/-- A concrete stand-in for the platform random generator with fixed
seed: constant 1/2, inside [0, 1). -/
def hashC : Nat → ℚ := fun _ => 1/2

/-- A concrete sample with a non-null target. -/
def featValidC : Feature :=
  { geom := pC, props := fun b => if b = "rh95" then some 5 else none }

/-- A concrete sample whose every property, the target included, is null. -/
def featNullC : Feature :=
  { geom := pC, props := fun _ => none }

/-- Evaluation sample 1: observed 10, predicted 12. -/
def fEval1 : Feature :=
  { geom := pC,
    props := fun b =>
      if b = "rh95" then some 10
      else if b = "classification" then some 12 else none }

/-- Evaluation sample 2: observed 20, prediction missing (null). -/
def fEval2 : Feature :=
  { geom := pC, props := fun b => if b = "rh95" then some 20 else none }

/-- Evaluation sample 3: observed 30, predicted 33. -/
def fEval3 : Feature :=
  { geom := pC,
    props := fun b =>
      if b = "rh95" then some 30
      else if b = "classification" then some 33 else none }

/-- The testing collection in which sample 2 lacks a prediction. -/
def fcEvalGap : List Feature := [fEval1, fEval2, fEval3]

/-- A testing collection in which every sample carries both values. -/
def fcEvalFull : List Feature := [fEval1, fEval3]

/-! ## Helper lemmas -/

lemma updateMask_val_some {img : EEImage} {mask : Pixel → Option ℚ} {b : String}
    {p : Pixel} {v : ℚ} (h : (updateMask img mask).val b p = some v) :
    img.val b p = some v ∧ ∃ m, mask p = some m ∧ m ≠ 0 := by
  simp only [updateMask] at h
  split at h
  · rename_i m hm
    split at h
    · exact absurd h (by simp)
    · rename_i hz
      exact ⟨h, m, hm, hz⟩
  · exact absurd h (by simp)

lemma eqMask_some_ne {img : EEImage} {band : String} {c : ℚ} {p : Pixel} {m : ℚ}
    (h : eqMask img band c p = some m) (hm : m ≠ 0) :
    img.val band p = some c := by
  unfold eqMask at h
  cases hv : img.val band p with
  | none => rw [hv] at h; exact absurd h (by simp)
  | some x =>
    rw [hv] at h
    simp only [Option.map_some'] at h
    by_cases hx : x = c
    · exact congrArg some hx
    · rw [if_neg hx] at h
      injection h with h
      exact absurd h.symm hm

lemma qualityMask_val_some {im : EEImage} {b : String} {p : Pixel} {v : ℚ}
    (h : (qualityMask im).val b p = some v) :
    im.val b p = some v ∧ im.val "quality_flag" p = some 1 ∧
      im.val "degrade_flag" p = some 0 := by
  unfold qualityMask at h
  obtain ⟨h1, m, hm, hmne⟩ := updateMask_val_some h
  obtain ⟨h2, n, hn, hnne⟩ := updateMask_val_some h1
  exact ⟨h2, eqMask_some_ne hn hnne, eqMask_some_ne hm hmne⟩

lemma clip_val_some {roi : Pixel → Bool} {img : EEImage} {b : String} {p : Pixel}
    {v : ℚ} (h : (clip roi img).val b p = some v) :
    roi p = true ∧ img.val b p = some v := by
  unfold clip at h
  simp only at h
  by_cases hr : roi p
  · rw [if_pos hr] at h
    exact ⟨hr, h⟩
  · rw [if_neg (by simpa using hr)] at h
    exact absurd h (by simp)

lemma selectBands_val_some {sel : String → Bool} {img : EEImage} {b : String}
    {p : Pixel} {v : ℚ} (h : (selectBands sel img).val b p = some v) :
    sel b = true ∧ img.val b p = some v := by
  unfold selectBands at h
  simp only at h
  by_cases hs : sel b
  · rw [if_pos hs] at h
    exact ⟨hs, h⟩
  · rw [if_neg (by simpa using hs)] at h
    exact absurd h (by simp)

/-! ## Theorems for the claims -/

/-- C10: every band value the quality mask retains is unchanged from the
input image, and the mask alters no other field of the image (band list
and date are preserved): the mask only removes pixels from the valid
set. -/
theorem qualityMask_frame (im : EEImage) (b : String) (p : Pixel) (v : ℚ)
    (h : (qualityMask im).val b p = some v) :
    im.val b p = some v ∧ (qualityMask im).bandNames = im.bandNames ∧
      (qualityMask im).date = im.date :=
  ⟨(qualityMask_val_some h).1, rfl, rfl⟩

/-- Witness for C10 at a concrete image and pixel. -/
theorem qualityMask_frame_witness :
    gediImgC.val "rh95" pC = some 42 ∧
    (qualityMask gediImgC).bandNames = gediImgC.bandNames ∧
    (qualityMask gediImgC).date = gediImgC.date :=
  qualityMask_frame gediImgC "rh95" pC 42 rfl

/-- C1 (amended): every pixel value retained by the GEDI quality-filter
chain comes from an input image whose date lies in the four-month window
[2019-06-01, 2019-10-01) (inclusive start, exclusive end), at a pixel
inside the ROI where `quality_flag == 1` and `degrade_flag == 0`, in a
band that is one of the `rh.*` percentile-height bands or the companion
latitude/longitude bands (all other bands are dropped), and the retained
value equals the input value. -/
theorem gedi_quality_filter (roi : Pixel → Bool) (coll : List EEImage)
    (imOut : EEImage) (h : imOut ∈ gediFiltered roi coll) :
    ∃ im, im ∈ coll ∧ imOut.date = im.date ∧
      20190601 ≤ im.date ∧ im.date < 20191001 ∧
      ∀ b p v, imOut.val b p = some v →
        gediBandSel b = true ∧ roi p = true ∧
        im.val "quality_flag" p = some 1 ∧ im.val "degrade_flag" p = some 0 ∧
        im.val b p = some v := by
  unfold gediFiltered at h
  obtain ⟨im1, h1, rfl⟩ := List.mem_map.mp h
  obtain ⟨im2, h2, rfl⟩ := List.mem_map.mp h1
  unfold filterDate at h2
  obtain ⟨h3, hdate⟩ := List.mem_filter.mp h2
  obtain ⟨im, him, rfl⟩ := List.mem_map.mp h3
  simp only [Bool.and_eq_true, decide_eq_true_eq] at hdate
  refine ⟨im, him, rfl, hdate.1, hdate.2, ?_⟩
  intro b p v hv
  obtain ⟨hsel, hv1⟩ := selectBands_val_some hv
  obtain ⟨hroi, hv2⟩ := clip_val_some hv1
  obtain ⟨hv3, hq, hd⟩ := qualityMask_val_some hv2
  exact ⟨hsel, hroi, hq, hd, hv3⟩

/-- Witness for C1 at a concrete one-image collection. -/
theorem gedi_quality_filter_witness :
    ∃ im, im ∈ [gediImgC] ∧ gediOutC.date = im.date ∧
      20190601 ≤ im.date ∧ im.date < 20191001 ∧
      ∀ b p v, gediOutC.val b p = some v →
        gediBandSel b = true ∧ roiC p = true ∧
        im.val "quality_flag" p = some 1 ∧ im.val "degrade_flag" p = some 0 ∧
        im.val b p = some v :=
  gedi_quality_filter roiC [gediImgC] gediOutC (List.mem_singleton.mpr rfl)

lemma setProp_props_ne {f : Feature} {k v b} (h : b ≠ k) :
    (setProp f k v).props b = f.props b := by
  unfold setProp
  simp [h]

lemma setProp_props_self (f : Feature) (k : String) (v : ℚ) :
    (setProp f k v).props k = some v := by
  unfold setProp
  simp

lemma addRandom_mem {hash : Nat → ℚ} {fs : List Feature} {g : Feature} :
    ∀ {i : Nat}, g ∈ addRandom hash i fs →
      ∃ j f, f ∈ fs ∧ g = setProp f "random" (hash j) := by
  induction fs with
  | nil => intro i h; simp [addRandom] at h
  | cons f fs ih =>
    intro i h
    rw [addRandom] at h
    rcases List.mem_cons.mp h with hg | hg
    · exact ⟨i, f, List.mem_cons_self f fs, hg⟩
    · obtain ⟨j, g0, hg0, hgeq⟩ := ih hg
      exact ⟨j, g0, List.mem_cons_of_mem f hg0, hgeq⟩

lemma withRandom_shape {hash : Nat → ℚ} {fc : List Feature} {g : Feature}
    (h : g ∈ withRandom hash fc) :
    ∃ j f, f ∈ validFeatures fc ∧ g = setProp f "random" (hash j) :=
  addRandom_mem h

lemma withRandom_rh95_isSome {hash : Nat → ℚ} {fc : List Feature} {g : Feature}
    (h : g ∈ withRandom hash fc) : (g.props "rh95").isSome = true := by
  obtain ⟨j, f, hf, rfl⟩ := withRandom_shape h
  rw [setProp_props_ne (by decide)]
  exact (List.mem_filter.mp hf).2

lemma withRandom_random_val {hash : Nat → ℚ} {fc : List Feature} {g : Feature}
    (h : g ∈ withRandom hash fc) :
    ∃ j, g.props "random" = some (hash j) := by
  obtain ⟨j, f, _, rfl⟩ := withRandom_shape h
  exact ⟨j, setProp_props_self f "random" (hash j)⟩

lemma propLt_eq_true {name : String} {c : ℚ} {f : Feature} :
    propLt name c f = true ↔ ∃ r, f.props name = some r ∧ r < c := by
  unfold propLt
  cases h : f.props name <;> simp

lemma propGte_eq_true {name : String} {c : ℚ} {f : Feature} :
    propGte name c f = true ↔ ∃ r, f.props name = some r ∧ c ≤ r := by
  unfold propGte
  cases h : f.props name <;> simp

/-- C2: the Sample Splitter drops every Sample with a null `rh95`,
assigns each remaining Sample a pseudo-random value in [0, 1) (the range
being the documented contract of the platform generator, taken as the
hypothesis on `hash`), sends value < 0.7 to Training and value ≥ 0.7 to
Testing, the two outputs are disjoint and together cover every remaining
Sample, and no null-target Sample reaches either output. -/
theorem sample_splitter (hash : Nat → ℚ) (fc : List Feature)
    (hr : ∀ i, 0 ≤ hash i ∧ hash i < 1) :
    (∀ f, f ∈ trainingSamples hash fc → (f.props "rh95").isSome = true) ∧
    (∀ f, f ∈ testingSamples hash fc → (f.props "rh95").isSome = true) ∧
    (∀ f, f ∈ withRandom hash fc →
      ∃ r, f.props "random" = some r ∧ 0 ≤ r ∧ r < 1) ∧
    (∀ f, f ∈ trainingSamples hash fc →
      ∃ r, f.props "random" = some r ∧ r < 7/10) ∧
    (∀ f, f ∈ testingSamples hash fc →
      ∃ r, f.props "random" = some r ∧ 7/10 ≤ r) ∧
    (∀ f, f ∈ withRandom hash fc →
      f ∈ trainingSamples hash fc ∨ f ∈ testingSamples hash fc) ∧
    (∀ f, f ∈ trainingSamples hash fc → ¬ f ∈ testingSamples hash fc) := by
  refine ⟨?_, ?_, ?_, ?_, ?_, ?_, ?_⟩
  · intro f hf
    exact withRandom_rh95_isSome (List.mem_filter.mp hf).1
  · intro f hf
    exact withRandom_rh95_isSome (List.mem_filter.mp hf).1
  · intro f hf
    obtain ⟨j, hj⟩ := withRandom_random_val hf
    exact ⟨hash j, hj, (hr j).1, (hr j).2⟩
  · intro f hf
    exact propLt_eq_true.mp (List.mem_filter.mp hf).2
  · intro f hf
    exact propGte_eq_true.mp (List.mem_filter.mp hf).2
  · intro f hf
    obtain ⟨j, hj⟩ := withRandom_random_val hf
    rcases lt_or_le (hash j) (7/10) with hlt | hle
    · exact Or.inl (List.mem_filter.mpr ⟨hf, propLt_eq_true.mpr ⟨hash j, hj, hlt⟩⟩)
    · exact Or.inr (List.mem_filter.mpr ⟨hf, propGte_eq_true.mpr ⟨hash j, hj, hle⟩⟩)
  · intro f hf hfte
    obtain ⟨r, hr1, hrlt⟩ := propLt_eq_true.mp (List.mem_filter.mp hf).2
    obtain ⟨s, hs1, hsle⟩ := propGte_eq_true.mp (List.mem_filter.mp hfte).2
    rw [hr1] at hs1
    injection hs1 with hs1
    rw [hs1] at hrlt
    exact absurd hrlt (not_lt.mpr hsle)

/-- Witness for C2 at a concrete generator and one-sample collection. -/
theorem sample_splitter_witness :
    (∀ f, f ∈ trainingSamples hashC [featValidC] →
      (f.props "rh95").isSome = true) ∧
    (∀ f, f ∈ testingSamples hashC [featValidC] →
      (f.props "rh95").isSome = true) ∧
    (∀ f, f ∈ withRandom hashC [featValidC] →
      ∃ r, f.props "random" = some r ∧ 0 ≤ r ∧ r < 1) ∧
    (∀ f, f ∈ trainingSamples hashC [featValidC] →
      ∃ r, f.props "random" = some r ∧ r < 7/10) ∧
    (∀ f, f ∈ testingSamples hashC [featValidC] →
      ∃ r, f.props "random" = some r ∧ 7/10 ≤ r) ∧
    (∀ f, f ∈ withRandom hashC [featValidC] →
      f ∈ trainingSamples hashC [featValidC] ∨
        f ∈ testingSamples hashC [featValidC]) ∧
    (∀ f, f ∈ trainingSamples hashC [featValidC] →
      ¬ f ∈ testingSamples hashC [featValidC]) :=
  sample_splitter hashC [featValidC]
    (fun _ => ⟨by norm_num [hashC], by norm_num [hashC]⟩)

/-- C6: the split is reproducible — two runs of the splitter over the
same input Sample set (with the platform generator fixed by the constant
default seed, modelled as the same `hash`) produce identical Training
and Testing lists; in this embedding the splitter is a pure function of
its input, so equal inputs give equal outputs. -/
theorem split_reproducible (hash : Nat → ℚ) (fc1 fc2 : List Feature)
    (h : fc1 = fc2) :
    trainingSamples hash fc1 = trainingSamples hash fc2 ∧
      testingSamples hash fc1 = testingSamples hash fc2 := by
  subst h
  exact ⟨rfl, rfl⟩

/-- Witness for C6 at a concrete collection. -/
theorem split_reproducible_witness :
    trainingSamples hashC [featValidC] = trainingSamples hashC [featValidC] ∧
      testingSamples hashC [featValidC] = testingSamples hashC [featValidC] :=
  split_reproducible hashC [featValidC] [featValidC] rfl

/-- Counterexample for C1 as stated: the filter retains the band `rh50`
(with its value) although it is neither the specific percentile-height
field `rh95` nor a latitude/longitude field, so retained elements do not
carry only those three fields; moreover a shot dated 2019-10-15 — inside
a six-month window starting 2019-06-01 — is removed, because the
window is [2019-06-01, 2019-10-01), four months. -/
theorem gedi_quality_filter_counterexample :
    gediOutC ∈ gediFiltered roiC [gediImgC] ∧
    gediOutC.val "rh50" pC = some 7 ∧
    ("rh50" : String) ≠ "rh95" ∧
    ("rh50" : String) ≠ "lat_highestreturn" ∧
    ("rh50" : String) ≠ "lon_highestreturn" ∧
    gediImgC.val "quality_flag" pC = some 1 ∧
    gediImgC.val "degrade_flag" pC = some 0 ∧
    gediLateC.date = 20191015 ∧
    20190601 ≤ gediLateC.date ∧ gediLateC.date < 20191201 ∧
    gediFiltered roiC [gediLateC] = [] :=
  ⟨List.mem_singleton.mpr rfl, rfl, by decide, by decide, by decide,
   rfl, rfl, rfl, by decide, by decide, rfl⟩

/-- C3: the regressor is configured with exactly 74 trees, minimum leaf
population 3, bag fraction 1, seed 123, output mode REGRESSION, the 11
named predictor bands (8 spectral bands plus ndvi, nbr, ndmi) as input
properties, and `rh95` as the target property. -/
theorem regressor_config (hash : Nat → ℚ) (simg : EEImage) (fc : List Feature) :
    (RFmodel hash simg fc).params.numberOfTrees = 74 ∧
    (RFmodel hash simg fc).params.minLeafPopulation = 3 ∧
    (RFmodel hash simg fc).params.bagFraction = 1 ∧
    (RFmodel hash simg fc).params.seed = 123 ∧
    (RFmodel hash simg fc).outputMode = "REGRESSION" ∧
    (RFmodel hash simg fc).inputProperties =
      ["B2_median", "B3_median", "B4_median", "B5_median", "B7_median",
       "B8_median", "B11_median", "B12_median", "ndvi", "nbr", "ndmi"] ∧
    (RFmodel hash simg fc).inputProperties.length = 11 ∧
    (RFmodel hash simg fc).classProperty = "rh95" :=
  ⟨rfl, rfl, rfl, rfl, rfl, rfl, rfl, rfl⟩

lemma stacked_val_ndvi (img : EEImage) (p : Pixel) {a r : ℚ}
    (h8 : img.val "B8_median" p = some a)
    (h4 : img.val "B4_median" p = some r) :
    (stacked img).val "ndvi" p = some ((a - r) / (a + r)) := by
  have hdef : (stacked img).val "ndvi" p =
      match img.val "B8_median" p, img.val "B4_median" p with
      | some x, some y => some ((x - y) / (x + y))
      | _, _ => none := rfl
  rw [hdef, h8, h4]

lemma stacked_val_nbr (img : EEImage) (p : Pixel) {a s : ℚ}
    (h8 : img.val "B8_median" p = some a)
    (h11 : img.val "B11_median" p = some s) :
    (stacked img).val "nbr" p = some ((a - s) / (a + s)) := by
  have hdef : (stacked img).val "nbr" p =
      match img.val "B8_median" p, img.val "B11_median" p with
      | some x, some y => some ((x - y) / (x + y))
      | _, _ => none := rfl
  rw [hdef, h8, h11]

lemma stacked_val_ndmi (img : EEImage) (p : Pixel) {a t : ℚ}
    (h8 : img.val "B8_median" p = some a)
    (h12 : img.val "B12_median" p = some t) :
    (stacked img).val "ndmi" p = some ((a - t) / (a + t)) := by
  have hdef : (stacked img).val "ndmi" p =
      match img.val "B8_median" p, img.val "B12_median" p with
      | some x, some y => some ((x - y) / (x + y))
      | _, _ => none := rfl
  rw [hdef, h8, h12]

lemma stacked_bandNames (img : EEImage) :
    (stacked img).bandNames = img.bandNames ++ ["ndvi", "nbr", "ndmi"] := by
  simp [stacked, addBands, ndvi, nbr, ndmi, indexImage]

/-- C4: at every pixel where the inputs are present, ndvi equals
(B8 - B4) / (B8 + B4), nbr equals (B8 - B11) / (B8 + B11) and ndmi
equals (B8 - B12) / (B8 + B12), with B8 the near-infrared band; the
three single-band rasters are appended to the composite, forming the
extended raster. -/
theorem index_formulas (img : EEImage) (p : Pixel) (a r s t : ℚ)
    (h8 : img.val "B8_median" p = some a)
    (h4 : img.val "B4_median" p = some r)
    (h11 : img.val "B11_median" p = some s)
    (h12 : img.val "B12_median" p = some t) :
    (stacked img).val "ndvi" p = some ((a - r) / (a + r)) ∧
    (stacked img).val "nbr" p = some ((a - s) / (a + s)) ∧
    (stacked img).val "ndmi" p = some ((a - t) / (a + t)) ∧
    (stacked img).bandNames = img.bandNames ++ ["ndvi", "nbr", "ndmi"] :=
  ⟨stacked_val_ndvi img p h8 h4, stacked_val_nbr img p h8 h11,
   stacked_val_ndmi img p h8 h12, stacked_bandNames img⟩

/-- Witness for C4 at a concrete composite and pixel. -/
theorem index_formulas_witness :
    (stacked s2ImgC).val "ndvi" pC = some ((4 - 1) / (4 + 1)) ∧
    (stacked s2ImgC).val "nbr" pC = some ((4 - 2) / (4 + 2)) ∧
    (stacked s2ImgC).val "ndmi" pC = some ((4 - 3) / (4 + 3)) ∧
    (stacked s2ImgC).bandNames = s2ImgC.bandNames ++ ["ndvi", "nbr", "ndmi"] :=
  index_formulas s2ImgC pC 4 1 2 3 rfl rfl rfl rfl

/-- Counterexample for C7 as stated: at a pixel where every index
denominator is zero (B8 = 1 and B4 = B11 = B12 = -1), the three index
values are the in-band number 0 — the platform's division-by-zero
result — and not the no-data marker (a masked pixel, `none` in this
embedding). -/
theorem index_zero_denominator_counterexample :
    s2ImgZeroDen.val "B8_median" pC = some 1 ∧
    s2ImgZeroDen.val "B4_median" pC = some (-1) ∧
    s2ImgZeroDen.val "B11_median" pC = some (-1) ∧
    s2ImgZeroDen.val "B12_median" pC = some (-1) ∧
    ((1 : ℚ) + (-1) = 0) ∧
    (stacked s2ImgZeroDen).val "ndvi" pC = some 0 ∧
    (stacked s2ImgZeroDen).val "nbr" pC = some 0 ∧
    (stacked s2ImgZeroDen).val "ndmi" pC = some 0 ∧
    (stacked s2ImgZeroDen).val "ndvi" pC ≠ none := by
  refine ⟨rfl, rfl, rfl, rfl, by norm_num, ?_, ?_, ?_, ?_⟩
  · rw [stacked_val_ndvi s2ImgZeroDen pC rfl rfl]
    norm_num
  · rw [stacked_val_nbr s2ImgZeroDen pC rfl rfl]
    norm_num
  · rw [stacked_val_ndmi s2ImgZeroDen pC rfl rfl]
    norm_num
  · rw [stacked_val_ndvi s2ImgZeroDen pC rfl rfl]
    simp

/-- C7 (amended): at every pixel where a denominator A + B is zero, the
corresponding index value is the in-band number 0 (the platform's
division-by-zero convention); the computation is total — it never raises
an exception and never propagates NaN — but the result is an ordinary
value, not a no-data marker. -/
theorem index_zero_denominator (img : EEImage) (p : Pixel) (a r s t : ℚ)
    (h8 : img.val "B8_median" p = some a)
    (h4 : img.val "B4_median" p = some r) (hzr : a + r = 0)
    (h11 : img.val "B11_median" p = some s) (hzs : a + s = 0)
    (h12 : img.val "B12_median" p = some t) (hzt : a + t = 0) :
    (stacked img).val "ndvi" p = some 0 ∧
    (stacked img).val "nbr" p = some 0 ∧
    (stacked img).val "ndmi" p = some 0 := by
  refine ⟨?_, ?_, ?_⟩
  · rw [stacked_val_ndvi img p h8 h4, hzr, div_zero]
  · rw [stacked_val_nbr img p h8 h11, hzs, div_zero]
  · rw [stacked_val_ndmi img p h8 h12, hzt, div_zero]

/-- Witness for C7 (amended) at a concrete composite and pixel. -/
theorem index_zero_denominator_witness :
    (stacked s2ImgZeroDen).val "ndvi" pC = some 0 ∧
    (stacked s2ImgZeroDen).val "nbr" pC = some 0 ∧
    (stacked s2ImgZeroDen).val "ndmi" pC = some 0 :=
  index_zero_denominator s2ImgZeroDen pC 1 (-1) (-1) (-1)
    rfl rfl (by norm_num) rfl (by norm_num) rfl (by norm_num)

/-- C5: over the (observed, predicted) pairs the Evaluator builds from
the Testing subset, the computed RMSE is the square root of the mean of
the squared residuals (pred - obs)^2 and the computed MAE is the mean of
the absolute residuals |pred - obs|, each taken over exactly those
pairs. -/
theorem evaluator_metrics (fc : List Feature) :
    Real.sqrt ((rmseSqVal fc : ℚ) : ℝ) =
      Real.sqrt ((specMeanSqErr (evalPairs fc) : ℚ) : ℝ) ∧
    maeVal fc = specMAE (evalPairs fc) := by
  have h1 : rmseSqVal fc = specMeanSqErr (evalPairs fc) := by
    unfold rmseSqVal specMeanSqErr listMean rmseTerms
    rw [List.length_map, div_eq_mul_inv]
  have h2 : maeVal fc = specMAE (evalPairs fc) := by
    unfold maeVal specMAE listMean maeTerms
    rw [List.length_map, div_eq_mul_inv]
  exact ⟨by rw [h1], h2⟩

/-- Counterexample for C8 as stated: in a testing collection of three
Samples in which the second lacks a prediction, the Evaluator silently
produces only two pairs, and the second Sample's observation 20 is
paired with the third Sample's prediction 33 — pairing is positional,
not by Sample identity, and the missing value is skipped with no error
report. -/
theorem evaluator_pairing_counterexample :
    fcEvalGap.length = 3 ∧
    fEval2.props "rh95" = some 20 ∧
    fEval2.props "classification" = none ∧
    evalPairs fcEvalGap = [(10, 12), (20, 33)] ∧
    (evalPairs fcEvalGap).length = 2 :=
  ⟨rfl, rfl, rfl, by decide, by decide⟩

/-- C8 (amended): the Evaluator pairs observations and predictions by
list position, zipping the array of non-null `rh95` values with the
array of non-null `classification` values; when every Testing Sample
carries both values, this pairing is exact and complete — the i-th pair
is the i-th Sample's (observed, predicted) values — but a Sample lacking
either value is silently omitted from its array, truncating or
misaligning the zip, and no error is reported. -/
theorem evaluator_pairing (fc : List Feature)
    (h : ∀ f ∈ fc, (f.props "rh95").isSome = true ∧
      (f.props "classification").isSome = true) :
    evalPairs fc = fc.map
      (fun f => ((f.props "rh95").getD 0, (f.props "classification").getD 0)) := by
  induction fc with
  | nil => rfl
  | cons f fs ih =>
    obtain ⟨h1, h2⟩ := h f (List.mem_cons_self f fs)
    obtain ⟨x, hx⟩ := Option.isSome_iff_exists.mp h1
    obtain ⟨y, hy⟩ := Option.isSome_iff_exists.mp h2
    have hrest := ih (fun g hg => h g (List.mem_cons_of_mem f hg))
    unfold evalPairs aggregateArray at hrest ⊢
    simp only [List.filterMap_cons, hx, hy, List.zip_cons_cons, List.map_cons,
      Option.getD_some]
    rw [hrest]

/-- Witness for C8 (amended) at a concrete complete testing collection. -/
theorem evaluator_pairing_witness :
    evalPairs fcEvalFull = fcEvalFull.map
      (fun f => ((f.props "rh95").getD 0, (f.props "classification").getD 0)) :=
  evaluator_pairing fcEvalFull (by decide)

/-- Counterexample for C9 as stated: on a collection whose only Sample
has a null target, quality/null filtering leaves zero Samples, yet the
pipeline does not fail: the random-forest model value is still produced,
fitted on an empty training table. -/
theorem zero_samples_counterexample :
    validFeatures [featNullC] = [] ∧
    trainingSamples hashC [featNullC] = [] ∧
    testingSamples hashC [featNullC] = [] ∧
    (RFmodel hashC s2ImgC [featNullC]).trainingData = [] ∧
    (RFmodel hashC s2ImgC [featNullC]).params.numberOfTrees = 74 ∧
    (RFmodel hashC s2ImgC [featNullC]).outputMode = "REGRESSION" :=
  ⟨rfl, rfl, rfl, rfl, rfl, rfl⟩

/-- C9 (amended): when filtering leaves zero Samples the pipeline does
not detect it and does not fail fast: the sample counts are printed
unconditionally as debug output, and model fitting proceeds, producing a
trained-model value whose training table has zero rows. -/
theorem zero_samples_no_failfast (hash : Nat → ℚ) (simg : EEImage)
    (fc : List Feature) (h : validFeatures fc = []) :
    trainingSamples hash fc = [] ∧ testingSamples hash fc = [] ∧
    (RFmodel hash simg fc).trainingData = [] ∧
    (RFmodel hash simg fc).params = rfParams ∧
    (RFmodel hash simg fc).outputMode = "REGRESSION" := by
  have ht : trainingSamples hash fc = [] := by
    unfold trainingSamples withRandom randomColumn
    rw [h]
    rfl
  have hte : testingSamples hash fc = [] := by
    unfold testingSamples withRandom randomColumn
    rw [h]
    rfl
  refine ⟨ht, hte, ?_, rfl, rfl⟩
  show sampleRegions (stacked simg) (trainingSamples hash fc) ["rh95"] = []
  rw [ht]
  rfl

/-- Witness for C9 (amended) at a concrete all-null collection. -/
theorem zero_samples_no_failfast_witness :
    trainingSamples hashC [featNullC] = [] ∧
    testingSamples hashC [featNullC] = [] ∧
    (RFmodel hashC s2ImgC [featNullC]).trainingData = [] ∧
    (RFmodel hashC s2ImgC [featNullC]).params = rfParams ∧
    (RFmodel hashC s2ImgC [featNullC]).outputMode = "REGRESSION" :=
  zero_samples_no_failfast hashC s2ImgC [featNullC] rfl
